import Mathlib

/-!
Shallow embedding of the ESP32 stepper-motor Motion Supervisor
(`src/src/main.cpp`, the `StepTask` FreeRTOS task together with the helper
functions it calls).  The supervisor owns the mutable globals
`g_userFreq, g_accel, g_dir, g_en, g_alarm, g_runReq, g_dirPend, g_dirNext`
and drives two external collaborators: the FastAccelStepper engine
(`setSpeedInHz`, `setAcceleration`, `runForward`, `runBackward`, `stopMove`,
`isRunning`) and the raw GPIO pins (`PIN_DIR`, `PIN_EN`).

Modelling decisions:
* every global is a field of `MState`; `g_dir`, `g_en` (uint8 forced to 0/1)
  become `Bool` with `true = 1`, and a raw uint32 payload `x` is coerced by
  the code's `x ? 1 : 0` which becomes `x != 0`;
* calls into the engine and pin writes are recorded as an `Effect` list, and
  the engine's observable `isRunning()` is the `running` field: a run call
  makes it `true`, `stopMove` on a running engine starts a deceleration
  (`stopping := true`) and `running` turns `false` only at the later,
  environment-chosen `settle` event — `isRunning()` stays `true` while the
  motor decelerates;
* `attached` models `stepper != nullptr`; `setup()` halts forever when the
  attach fails and only then creates `StepTask`, so in every execution of the
  supervisor `attached = true` (it is never written afterwards);
* the supervisor loop is decomposed into events: draining one queued command
  (`cmd`), one 10 ms alarm poll observing a level (`alarmSample`), the
  per-iteration pending-direction check (`dirTick`), and the engine
  completing a commanded stop (`settle`).  Real-time spacing of the polls is
  not modelled; only their order and effects are.
* arithmetic is on `Nat`; every value stored into the state passes a
  `clamp_u32` whose bounds are far below 2^32, so no wraparound can occur in
  the stored fields; the single place the code narrows a wider intermediate
  (the `uint32_t` cast of the 64-bit ramp quotient) keeps an explicit
  `% 2^32`.
-/

/-- `clamp_u32` from main.cpp lines 41-45. -/
def clamp_u32 (v lo hi : Nat) : Nat :=
  if v < lo then lo
  else if v > hi then hi
  else v

/-- `FREQ_MAX` (line 19). -/
def FREQ_MAX : Nat := 400000

/-- `CmdType` (line 31). -/
inductive CmdType where
  | START | STOP | FREQ | DIR | EN | RAMP | STATUS | ACCEL
deriving Repr, DecidableEq

/-- `struct Cmd` (lines 33-37): a tag and two uint32 payloads. -/
structure Cmd where
  type : CmdType
  a : Nat
  b : Nat
deriving Repr, DecidableEq

/-- The supervisor-owned globals (lines 21-29), the GPIO pin levels the
supervisor writes, and the abstract engine state. `dirPin`/`enPin` hold the
last level written to `PIN_DIR`/`PIN_EN` (`true = HIGH`). -/
structure MState where
  userFreq : Nat    -- g_userFreq
  accel    : Nat    -- g_accel
  dir      : Bool   -- g_dir       (true = 1 = backward run direction)
  en       : Bool   -- g_en
  alarm    : Bool   -- g_alarm
  runReq   : Bool   -- g_runReq
  dirPend  : Bool   -- g_dirPend
  dirNext  : Bool   -- g_dirNext
  dirPin   : Bool   -- level of PIN_DIR
  enPin    : Bool   -- level of PIN_EN (active LOW)
  attached : Bool   -- stepper != nullptr
  running  : Bool   -- stepper->isRunning()
  stopping : Bool   -- engine is decelerating after a stopMove
deriving Repr, DecidableEq

/-- Calls the supervisor makes on the hardware, in program order. -/
inductive Effect where
  | setSpeedInHz (hz : Nat)
  | setAcceleration (a : Nat)
  | runForward
  | runBackward
  | stopMove
  | dirPinWrite (level : Bool)
  | enPinWrite (level : Bool)
deriving Repr, DecidableEq

/-- `applyEnablePin` (lines 54-56): `digitalWrite(PIN_EN, g_en ? LOW : HIGH)`. -/
def applyEnablePin (s : MState) : MState × List Effect :=
  ({ s with enPin := !s.en }, [.enPinWrite (!s.en)])

/-- `applyDirPin` (lines 58-60): `digitalWrite(PIN_DIR, g_dir ? HIGH : LOW)`. -/
def applyDirPin (s : MState) : MState × List Effect :=
  ({ s with dirPin := s.dir }, [.dirPinWrite s.dir])

/-- `applyParamsToStepper` (lines 62-66). -/
def applyParamsToStepper (s : MState) : MState × List Effect :=
  if !s.attached then (s, [])
  else (s, [.setSpeedInHz (clamp_u32 s.userFreq 1 FREQ_MAX),
            .setAcceleration (clamp_u32 s.accel 1 2000000)])

/-- `applyRunDirectionToUpdateSpeed` (lines 68-74): a run call starts the
engine (and cancels any deceleration in progress). -/
def applyRunDirectionToUpdateSpeed (s : MState) : MState × List Effect :=
  if !s.attached then (s, [])
  else if !s.runReq then (s, [])
  else if s.dir then ({ s with running := true, stopping := false }, [.runBackward])
  else ({ s with running := true, stopping := false }, [.runForward])

/-- `stepper->stopMove()`: on a running engine, begin decelerating;
`isRunning()` remains `true` until the `settle` event. -/
def stopMoveEngine (s : MState) : MState × List Effect :=
  if s.running then ({ s with stopping := true }, [.stopMove])
  else (s, [.stopMove])

/-- `requestStart` (lines 76-81). -/
def requestStart (s : MState) : MState × List Effect :=
  if !s.attached || !s.en || s.alarm then (s, [])
  else
    let p1 := applyParamsToStepper s
    let s2 := { p1.1 with runReq := true }
    let p3 := applyRunDirectionToUpdateSpeed s2
    (p3.1, p1.2 ++ p3.2)

/-- `requestStop` (lines 83-86). -/
def requestStop (s : MState) : MState × List Effect :=
  let s1 := { s with runReq := false }
  if s1.attached then stopMoveEngine s1 else (s1, [])

/-- `requestDir` (lines 88-102); the argument is already forced to 0/1 by
the caller-side `? 1 : 0` (line 89 re-forces, a no-op on a `Bool`). -/
def requestDir (newDir : Bool) (s : MState) : MState × List Effect :=
  if newDir = s.dir then (s, [])
  else
    let s1 := { s with dirNext := newDir }
    if s1.attached && s1.running then
      stopMoveEngine { s1 with dirPend := true }
    else
      let s2 := { s1 with dir := newDir }
      let p3 := applyDirPin s2
      if p3.1.runReq then
        let p4 := requestStart p3.1
        (p4.1, p3.2 ++ p4.2)
      else p3

/-- One drained command, the `switch (cmd.type)` of `StepTask`
(lines 109-162). -/
def stepCmd (c : Cmd) (s : MState) : MState × List Effect :=
  match c.type with
  | .START => requestStart s
  | .STOP => requestStop s
  | .FREQ =>
      let s1 := { s with userFreq := clamp_u32 c.a 1 FREQ_MAX }
      let p2 := applyParamsToStepper s1
      if p2.1.attached && p2.1.running then
        let p3 := applyRunDirectionToUpdateSpeed p2.1
        (p3.1, p2.2 ++ p3.2)
      else p2
  | .ACCEL =>
      let s1 := { s with accel := clamp_u32 c.a 1 2000000 }
      let p2 := applyParamsToStepper s1
      if p2.1.attached && p2.1.running then
        let p3 := applyRunDirectionToUpdateSpeed p2.1
        (p3.1, p2.2 ++ p3.2)
      else p2
  | .DIR => requestDir (c.a != 0) s
  | .EN =>
      let s1 := { s with en := c.a != 0 }
      let p2 := applyEnablePin s1
      if !p2.1.en then
        let p3 := requestStop p2.1
        (p3.1, p2.2 ++ p3.2)
      else if p2.1.runReq && !p2.1.alarm then
        let p3 := requestStart p2.1
        (p3.1, p2.2 ++ p3.2)
      else p2
  | .RAMP =>
      let target := clamp_u32 c.a 1 FREQ_MAX
      let ms := clamp_u32 c.b 50 60000
      let cur := s.userFreq
      let diff := if target > cur then target - cur else cur - target
      -- (uint32_t)((uint64_t)diff * 1000ULL / ms): the 64-bit quotient is
      -- narrowed to uint32 before clamping
      let acc := if diff = 0 then s.accel else (diff * 1000 / ms) % 2 ^ 32
      let s1 := { s with userFreq := target, accel := clamp_u32 acc 1 2000000 }
      let p2 := applyParamsToStepper s1
      let p3 :=
        if p2.1.attached && p2.1.running then
          let q := applyRunDirectionToUpdateSpeed p2.1
          (q.1, p2.2 ++ q.2)
        else p2
      if p3.1.en && !p3.1.alarm then
        let p4 := requestStart p3.1
        (p4.1, p3.2 ++ p4.2)
      else p3
  | .STATUS => (s, [])

/-- One 10 ms alarm poll observing level `al` (lines 164-173): act only on a
level change. -/
def alarmSampleStep (al : Bool) (s : MState) : MState × List Effect :=
  if al = s.alarm then (s, [])
  else
    let s1 := { s with alarm := al }
    if s1.alarm then requestStop s1
    else if s1.runReq && s1.en then requestStart s1
    else (s1, [])

/-- The per-iteration pending-direction check (lines 175-180). -/
def dirTickStep (s : MState) : MState × List Effect :=
  if s.dirPend && s.attached && !s.running then
    let s1 := { s with dirPend := false, dir := s.dirNext }
    let p2 := applyDirPin s1
    if p2.1.runReq && p2.1.en && !p2.1.alarm then
      let p3 := requestStart p2.1
      (p3.1, p2.2 ++ p3.2)
    else p2
  else (s, [])

/-- The engine finishing a commanded stop: after `stopMove`, at some
environment-chosen instant `isRunning()` becomes `false`. With
`runForward`/`runBackward` the engine otherwise runs indefinitely. -/
def settleStep (s : MState) : MState × List Effect :=
  if s.stopping then ({ s with running := false, stopping := false }, [])
  else (s, [])

/-- The events interleaved by the supervisor loop and its environment. -/
inductive Event where
  | cmd (c : Cmd)
  | alarmSample (level : Bool)
  | dirTick
  | settle
deriving Repr, DecidableEq

/-- One supervisor step. -/
def step : Event → MState → MState × List Effect
  | .cmd c, s => stepCmd c s
  | .alarmSample al, s => alarmSampleStep al s
  | .dirTick, s => dirTickStep s
  | .settle, s => settleStep s

/-- The state right after `setup()` (lines 571-606): globals at their
initialisers (lines 21-29) with `g_dir = 0; applyDirPin(); g_en = 1;
applyEnablePin();` re-applied, a successfully attached stepper, and the
engine idle. -/
def initState : MState :=
  { userFreq := 10000
    accel := 200000
    dir := false
    en := true
    alarm := false
    runReq := false
    dirPend := false
    dirNext := false
    dirPin := false   -- g_dir = 0 → LOW
    enPin := false    -- g_en = 1 → LOW (EN is active LOW)
    attached := true
    running := false
    stopping := false }

/-- States the supervisor can be in. -/
inductive Reachable : MState → Prop where
  | init : Reachable initState
  | step (e : Event) {s : MState} : Reachable s → Reachable (step e s).1

/-- No run call occurs in an effect list. -/
def noRunCall (l : List Effect) : Prop :=
  Effect.runForward ∉ l ∧ Effect.runBackward ∉ l

/-- Modelled from the spec: the ramp rate "rate = round(delta * 1000 /
durationMs)" with `round` read as round-to-nearest integer division.  Used
only to compare the spec's formula with the code's truncating division. -/
def specRampRate (delta durationMs : Nat) : Nat :=
  (delta * 1000 + durationMs / 2) / durationMs

/-- The state after a Start from the initial state: motor running forward. -/
def runState : MState := (step (.cmd ⟨.START, 0, 0⟩) initState).1

/-- `runState` after SetDirection(1): a direction change is pending while
the engine decelerates. -/
def pendState : MState := (step (.cmd ⟨.DIR, 1, 0⟩) runState).1

/-- `pendState` after the engine completes the stop: direction change still
pending, engine not running. -/
def stopState : MState := (step .settle pendState).1

/-! ### Closed-form characterisations of the helpers -/

theorem applyParamsToStepper_fst (s : MState) : (applyParamsToStepper s).1 = s := by
  unfold applyParamsToStepper; split <;> rfl

theorem applyParamsToStepper_snd (s : MState) :
    (applyParamsToStepper s).2 =
      if s.attached then
        [Effect.setSpeedInHz (clamp_u32 s.userFreq 1 FREQ_MAX),
         Effect.setAcceleration (clamp_u32 s.accel 1 2000000)]
      else [] := by
  unfold applyParamsToStepper; cases s.attached <;> simp

theorem applyRunDirectionToUpdateSpeed_eq (s : MState) :
    applyRunDirectionToUpdateSpeed s =
      if s.attached && s.runReq then
        ({ s with running := true, stopping := false },
         [if s.dir then Effect.runBackward else Effect.runForward])
      else (s, []) := by
  obtain ⟨uf, ac, dir, en, al, rq, dp, dn, dpin, epin, att, run, st⟩ := s
  unfold applyRunDirectionToUpdateSpeed
  cases att <;> cases rq <;> cases dir <;> simp

theorem requestStart_eq (s : MState) :
    requestStart s =
      if s.attached && s.en && !s.alarm then
        ({ s with runReq := true, running := true, stopping := false },
         [Effect.setSpeedInHz (clamp_u32 s.userFreq 1 FREQ_MAX),
          Effect.setAcceleration (clamp_u32 s.accel 1 2000000),
          if s.dir then Effect.runBackward else Effect.runForward])
      else (s, []) := by
  obtain ⟨uf, ac, dir, en, al, rq, dp, dn, dpin, epin, att, run, st⟩ := s
  unfold requestStart
  cases att <;> cases en <;> cases al <;>
    simp [applyParamsToStepper_fst, applyParamsToStepper_snd,
      applyRunDirectionToUpdateSpeed_eq]

theorem requestStop_eq (s : MState) :
    requestStop s =
      ({ s with runReq := false, stopping := s.stopping || (s.attached && s.running) },
       if s.attached then [Effect.stopMove] else []) := by
  obtain ⟨uf, ac, dir, en, al, rq, dp, dn, dpin, epin, att, run, st⟩ := s
  unfold requestStop stopMoveEngine
  cases att <;> cases run <;> cases st <;> simp

theorem requestDir_eq (d : Bool) (s : MState) :
    requestDir d s =
      if d = s.dir then (s, [])
      else if s.attached && s.running then
        ({ s with dirNext := d, dirPend := true, stopping := true }, [Effect.stopMove])
      else if s.runReq then
        ((requestStart { s with dirNext := d, dir := d, dirPin := d }).1,
         Effect.dirPinWrite d :: (requestStart { s with dirNext := d, dir := d, dirPin := d }).2)
      else ({ s with dirNext := d, dir := d, dirPin := d }, [Effect.dirPinWrite d]) := by
  obtain ⟨uf, ac, dir, en, al, rq, dp, dn, dpin, epin, att, run, st⟩ := s
  unfold requestDir stopMoveEngine applyDirPin
  cases d <;> cases dir <;> cases att <;> cases run <;> cases rq <;> simp

theorem stepCmd_START (a b : Nat) (s : MState) :
    stepCmd ⟨.START, a, b⟩ s = requestStart s := rfl

theorem stepCmd_STOP (a b : Nat) (s : MState) :
    stepCmd ⟨.STOP, a, b⟩ s = requestStop s := rfl

theorem stepCmd_DIR (a b : Nat) (s : MState) :
    stepCmd ⟨.DIR, a, b⟩ s = requestDir (a != 0) s := rfl

theorem stepCmd_STATUS (a b : Nat) (s : MState) :
    stepCmd ⟨.STATUS, a, b⟩ s = (s, []) := rfl

theorem stepCmd_FREQ (a b : Nat) (s : MState) :
    stepCmd ⟨.FREQ, a, b⟩ s =
      (let s1 := { s with userFreq := clamp_u32 a 1 FREQ_MAX }
       if s1.attached && s1.running && s1.runReq then
         ({ s1 with running := true, stopping := false },
          (applyParamsToStepper s1).2 ++ [if s1.dir then Effect.runBackward else Effect.runForward])
       else (s1, (applyParamsToStepper s1).2)) := by
  obtain ⟨uf, ac, dir, en, al, rq, dp, dn, dpin, epin, att, run, st⟩ := s
  unfold stepCmd
  cases att <;> cases run <;> cases rq <;>
    simp [applyParamsToStepper, applyParamsToStepper_fst, applyParamsToStepper_snd, applyRunDirectionToUpdateSpeed_eq]

theorem stepCmd_ACCEL (a b : Nat) (s : MState) :
    stepCmd ⟨.ACCEL, a, b⟩ s =
      (let s1 := { s with accel := clamp_u32 a 1 2000000 }
       if s1.attached && s1.running && s1.runReq then
         ({ s1 with running := true, stopping := false },
          (applyParamsToStepper s1).2 ++ [if s1.dir then Effect.runBackward else Effect.runForward])
       else (s1, (applyParamsToStepper s1).2)) := by
  obtain ⟨uf, ac, dir, en, al, rq, dp, dn, dpin, epin, att, run, st⟩ := s
  unfold stepCmd
  cases att <;> cases run <;> cases rq <;>
    simp [applyParamsToStepper, applyParamsToStepper_fst, applyParamsToStepper_snd, applyRunDirectionToUpdateSpeed_eq]

theorem stepCmd_EN (a b : Nat) (s : MState) :
    stepCmd ⟨.EN, a, b⟩ s =
      (let s1 := { s with en := a != 0, enPin := !(a != 0) }
       if !(a != 0) then
         ({ s1 with runReq := false, stopping := s1.stopping || (s1.attached && s1.running) },
          Effect.enPinWrite (!(a != 0)) :: (if s1.attached then [Effect.stopMove] else []))
       else if s1.runReq && !s1.alarm then
         ((requestStart s1).1, Effect.enPinWrite (!(a != 0)) :: (requestStart s1).2)
       else (s1, [Effect.enPinWrite (!(a != 0))])) := by
  obtain ⟨uf, ac, dir, en, al, rq, dp, dn, dpin, epin, att, run, st⟩ := s
  unfold stepCmd applyEnablePin
  cases ha : (a != 0) <;> cases al <;> cases rq <;>
    simp [ha, requestStop_eq, requestStart_eq]

theorem stepCmd_RAMP (a b : Nat) (s : MState) :
    stepCmd ⟨.RAMP, a, b⟩ s =
      (let target := clamp_u32 a 1 FREQ_MAX
       let ms := clamp_u32 b 50 60000
       let diff := if target > s.userFreq then target - s.userFreq else s.userFreq - target
       let acc := if diff = 0 then s.accel else (diff * 1000 / ms) % 2 ^ 32
       let s1 := { s with userFreq := target, accel := clamp_u32 acc 1 2000000 }
       let p3 :=
         if s1.attached && s1.running && s1.runReq then
           ({ s1 with running := true, stopping := false },
            (applyParamsToStepper s1).2 ++ [if s1.dir then Effect.runBackward else Effect.runForward])
         else (s1, (applyParamsToStepper s1).2)
       if p3.1.en && !p3.1.alarm then
         ((requestStart p3.1).1, p3.2 ++ (requestStart p3.1).2)
       else p3) := by
  obtain ⟨uf, ac, dir, en, al, rq, dp, dn, dpin, epin, att, run, st⟩ := s
  unfold stepCmd
  cases att <;> cases run <;> cases rq <;> cases en <;> cases al <;>
    simp [applyParamsToStepper, applyParamsToStepper_fst, applyParamsToStepper_snd, applyRunDirectionToUpdateSpeed_eq]

theorem alarmSampleStep_eq (al : Bool) (s : MState) :
    alarmSampleStep al s =
      if al = s.alarm then (s, [])
      else if al then
        ({ s with alarm := true, runReq := false,
                  stopping := s.stopping || (s.attached && s.running) },
         if s.attached then [Effect.stopMove] else [])
      else if s.runReq && s.en then requestStart { s with alarm := false }
      else ({ s with alarm := false }, []) := by
  obtain ⟨uf, ac, dir, en, al0, rq, dp, dn, dpin, epin, att, run, st⟩ := s
  unfold alarmSampleStep
  cases al <;> cases al0 <;> cases rq <;> cases en <;>
    simp [requestStop_eq, requestStart_eq]

theorem dirTickStep_eq (s : MState) :
    dirTickStep s =
      if s.dirPend && s.attached && !s.running then
        (let s1 := { s with dirPend := false, dir := s.dirNext, dirPin := s.dirNext }
         if s1.runReq && s1.en && !s1.alarm then
           ((requestStart s1).1, Effect.dirPinWrite s.dirNext :: (requestStart s1).2)
         else (s1, [Effect.dirPinWrite s.dirNext]))
      else (s, []) := by
  obtain ⟨uf, ac, dir, en, al, rq, dp, dn, dpin, epin, att, run, st⟩ := s
  unfold dirTickStep applyDirPin
  cases dp <;> cases att <;> cases run <;> cases rq <;> cases en <;> cases al <;>
    simp [requestStart_eq]

theorem le_clamp_u32 (v lo hi : Nat) (h : lo ≤ hi) : lo ≤ clamp_u32 v lo hi := by
  unfold clamp_u32; split_ifs <;> omega

theorem clamp_u32_le (v lo hi : Nat) (h : lo ≤ hi) : clamp_u32 v lo hi ≤ hi := by
  unfold clamp_u32; split_ifs <;> omega

theorem clamp_u32_eq_self (v lo hi : Nat) (h1 : lo ≤ v) (h2 : v ≤ hi) :
    clamp_u32 v lo hi = v := by
  unfold clamp_u32; split_ifs <;> omega

/-- The inductive invariant of the supervisor: the stepper is attached, the
run intent is absent whenever the alarm is latched or the driver disabled,
and the stored frequency/acceleration are inside their clamp bounds. -/
def GoodState (s : MState) : Prop :=
  s.attached = true ∧
  (s.alarm = true → s.runReq = false) ∧
  (s.en = false → s.runReq = false) ∧
  1 ≤ s.userFreq ∧ s.userFreq ≤ FREQ_MAX ∧
  1 ≤ s.accel ∧ s.accel ≤ 2000000

theorem goodState_requestStart (s : MState) (h : GoodState s) :
    GoodState (requestStart s).1 := by
  obtain ⟨h1, h2, h3, h4⟩ := h
  rw [requestStart_eq]
  split_ifs with hc <;> simp_all [GoodState]

theorem goodState_requestStop (s : MState) (h : GoodState s) :
    GoodState (requestStop s).1 := by
  obtain ⟨h1, h2, h3, h4⟩ := h
  rw [requestStop_eq]
  simp_all [GoodState]

theorem goodState_step (e : Event) (s : MState) (h : GoodState s) :
    GoodState (step e s).1 := by
  obtain ⟨c⟩ | l | _ | _ := e
  case cmd =>
    obtain ⟨t, a, b⟩ := c
    cases t
    case START => exact goodState_requestStart s h
    case STOP => exact goodState_requestStop s h
    case STATUS => exact h
    case DIR =>
      obtain ⟨h1, h2, h3, h4⟩ := h
      show GoodState (requestDir (a != 0) s).1
      rw [requestDir_eq]
      split_ifs with hd hr hq
      · exact ⟨h1, h2, h3, h4⟩
      · simp_all [GoodState]
      · have := goodState_requestStart { s with dirNext := a != 0, dir := a != 0, dirPin := a != 0 }
          (by simp_all [GoodState])
        simpa [GoodState] using this
      · simp_all [GoodState]
    case FREQ =>
      obtain ⟨h1, h2, h3, h4⟩ := h
      show GoodState (stepCmd ⟨.FREQ, a, b⟩ s).1
      rw [stepCmd_FREQ]
      have hf1 : 1 ≤ clamp_u32 a 1 FREQ_MAX := le_clamp_u32 _ _ _ (by decide)
      have hf2 : clamp_u32 a 1 FREQ_MAX ≤ FREQ_MAX := clamp_u32_le _ _ _ (by decide)
      dsimp only
      split_ifs <;> simp_all [GoodState]
    case ACCEL =>
      obtain ⟨h1, h2, h3, h4⟩ := h
      show GoodState (stepCmd ⟨.ACCEL, a, b⟩ s).1
      rw [stepCmd_ACCEL]
      have hf1 : 1 ≤ clamp_u32 a 1 2000000 := le_clamp_u32 _ _ _ (by decide)
      have hf2 : clamp_u32 a 1 2000000 ≤ 2000000 := clamp_u32_le _ _ _ (by decide)
      dsimp only
      split_ifs <;> simp_all [GoodState]
    case EN =>
      obtain ⟨h1, h2, h3, h4⟩ := h
      show GoodState (stepCmd ⟨.EN, a, b⟩ s).1
      rw [stepCmd_EN]
      by_cases he : (a != 0) = true
      · simp only [he]
        split_ifs with hq
        · simp_all [GoodState]
        · have := goodState_requestStart { s with en := true, enPin := false }
            (by simp_all [GoodState])
          simpa [GoodState] using this
        · simp_all [GoodState]
      · replace he : (a != 0) = false := by simpa using he
        simp only [he]
        simp_all [GoodState]
    case RAMP =>
      obtain ⟨h1, h2, h3, h4⟩ := h
      show GoodState (stepCmd ⟨.RAMP, a, b⟩ s).1
      rw [stepCmd_RAMP]
      have hf1 : 1 ≤ clamp_u32 a 1 FREQ_MAX := le_clamp_u32 _ _ _ (by decide)
      have hf2 : clamp_u32 a 1 FREQ_MAX ≤ FREQ_MAX := clamp_u32_le _ _ _ (by decide)
      have hg1 : ∀ x : Nat, 1 ≤ clamp_u32 x 1 2000000 := fun x => le_clamp_u32 _ _ _ (by decide)
      have hg2 : ∀ x : Nat, clamp_u32 x 1 2000000 ≤ 2000000 := fun x => clamp_u32_le _ _ _ (by decide)
      dsimp only
      split_ifs with hc1 hc2 hc3 <;>
        first
          | (apply goodState_requestStart; simp_all [GoodState])
          | simp_all [GoodState]
  case alarmSample =>
    obtain ⟨h1, h2, h3, h4⟩ := h
    show GoodState (alarmSampleStep l s).1
    rw [alarmSampleStep_eq]
    split_ifs with hc1 hc2 hc3
    · exact ⟨h1, h2, h3, h4⟩
    · simp_all [GoodState]
    · apply goodState_requestStart; simp_all [GoodState]
    · simp_all [GoodState]
  case dirTick =>
    obtain ⟨h1, h2, h3, h4⟩ := h
    show GoodState (dirTickStep s).1
    rw [dirTickStep_eq]
    dsimp only
    split_ifs with hc1 hc2
    · apply goodState_requestStart; simp_all [GoodState]
    · simp_all [GoodState]
    · exact ⟨h1, h2, h3, h4⟩
  case settle =>
    obtain ⟨h1, h2, h3, h4⟩ := h
    show GoodState (settleStep s).1
    unfold settleStep
    split_ifs <;> simp_all [GoodState]

theorem goodState_init : GoodState initState := by
  constructor <;> simp [initState, FREQ_MAX]

theorem reachable_goodState (s : MState) (h : Reachable s) : GoodState s := by
  induction h with
  | init => exact goodState_init
  | step e _ ih => exact goodState_step e _ ih

/-- C1 counterexample: start the motor from the initial state (so
`runRequested = true`), then sample the alarm input high.  The rising edge
does set `alarmActive` and stop the engine, but `runRequested` is cleared to
`false`, not left unchanged as the claim states. -/
theorem C1_counterexample :
    (step (.cmd ⟨.START, 0, 0⟩) initState).1.runReq = true ∧
    (step (.alarmSample true) (step (.cmd ⟨.START, 0, 0⟩) initState).1).1.alarm = true ∧
    (step (.alarmSample true) (step (.cmd ⟨.START, 0, 0⟩) initState).1).1.runReq = false := by
  decide

/-- C1 (amended): on a rising edge of the alarm input (previous level
inactive, new level active) the supervisor sets `alarmActive`, issues an
immediate Stop to the engine, and — because the stop goes through
`requestStop` — clears `runRequested` to `false`. -/
theorem C1_alarm_rising_edge (s : MState) (hatt : s.attached = true)
    (hal : s.alarm = false) :
    (step (.alarmSample true) s).1.alarm = true ∧
    (step (.alarmSample true) s).1.runReq = false ∧
    Effect.stopMove ∈ (step (.alarmSample true) s).2 := by
  simp only [step]
  rw [alarmSampleStep_eq]
  simp [hal, hatt]

/-- Witness for C1: the amended theorem applied right after a Start from the
initial state. -/
theorem C1_alarm_rising_edge_witness :
    (step (.alarmSample true) (step (.cmd ⟨.START, 0, 0⟩) initState).1).1.alarm = true ∧
    (step (.alarmSample true) (step (.cmd ⟨.START, 0, 0⟩) initState).1).1.runReq = false ∧
    Effect.stopMove ∈ (step (.alarmSample true) (step (.cmd ⟨.START, 0, 0⟩) initState).1).2 :=
  C1_alarm_rising_edge (step (.cmd ⟨.START, 0, 0⟩) initState).1 (by decide) (by decide)

/-- C2 counterexample: latch the alarm from the initial state, then apply
Start.  `runRequested` stays `false`: the intent is not recorded, because
`requestStart` returns before setting `g_runReq` when the alarm is active. -/
theorem C2_counterexample :
    (step (.alarmSample true) initState).1.alarm = true ∧
    (step (.cmd ⟨.START, 0, 0⟩) (step (.alarmSample true) initState).1).1.runReq = false := by
  decide

/-- C2 (amended): a Start command while `alarmActive` is a complete no-op —
the state (including `runRequested`) is unchanged and no call is made to the
engine, so the engine is in particular not started. -/
theorem C2_start_during_alarm (s : MState) (a b : Nat) (h : s.alarm = true) :
    step (.cmd ⟨.START, a, b⟩) s = (s, []) := by
  show requestStart s = (s, [])
  rw [requestStart_eq]
  simp [h]

/-- Witness for C2: Start applied in the alarm-latched state reached from
the initial state. -/
theorem C2_start_during_alarm_witness :
    step (.cmd ⟨.START, 0, 0⟩) (step (.alarmSample true) initState).1 =
      ((step (.alarmSample true) initState).1, []) :=
  C2_start_during_alarm (step (.alarmSample true) initState).1 0 0 (by decide)

/-- C3 counterexample: Start from the initial state (motor running), then
SetEnable(0).  `runRequested` is cleared by the disable — not preserved as
the claim states — and the later SetEnable(1) after the engine settles does
not restore `running`. -/
theorem C3_counterexample :
    (step (.cmd ⟨.START, 0, 0⟩) initState).1.running = true ∧
    (step (.cmd ⟨.EN, 0, 0⟩) (step (.cmd ⟨.START, 0, 0⟩) initState).1).1.runReq = false ∧
    (step (.cmd ⟨.EN, 1, 0⟩)
        (step .settle
          (step (.cmd ⟨.EN, 0, 0⟩) (step (.cmd ⟨.START, 0, 0⟩) initState).1).1).1).1.running
      = false := by
  decide

/-- C3 (amended): SetEnable(0) while the motor is running forces an
immediate stop and also clears `runRequested` (the run intent does not
survive the disable); consequently a subsequent SetEnable(1) with no
intervening Start issues no run call and leaves the motor stopped. -/
theorem C3_disable_clears_run_intent (s : MState) (hatt : s.attached = true)
    (hrun : s.running = true) :
    (step (.cmd ⟨.EN, 0, 0⟩) s).2 = [Effect.enPinWrite true, Effect.stopMove] ∧
    (step (.cmd ⟨.EN, 0, 0⟩) s).1.runReq = false ∧
    (step (.cmd ⟨.EN, 1, 0⟩) (step .settle (step (.cmd ⟨.EN, 0, 0⟩) s).1).1).1.running = false ∧
    noRunCall (step (.cmd ⟨.EN, 1, 0⟩) (step .settle (step (.cmd ⟨.EN, 0, 0⟩) s).1).1).2 := by
  obtain ⟨uf, ac, dir, en, al, rq, dp, dn, dpin, epin, att, run, st⟩ := s
  subst hatt hrun
  simp [step, stepCmd_EN, settleStep, noRunCall]

/-- Witness for C3: the amended theorem applied right after a Start from the
initial state. -/
theorem C3_disable_clears_run_intent_witness :
    (step (.cmd ⟨.EN, 0, 0⟩) (step (.cmd ⟨.START, 0, 0⟩) initState).1).2 =
      [Effect.enPinWrite true, Effect.stopMove] ∧
    (step (.cmd ⟨.EN, 0, 0⟩) (step (.cmd ⟨.START, 0, 0⟩) initState).1).1.runReq = false ∧
    (step (.cmd ⟨.EN, 1, 0⟩)
        (step .settle
          (step (.cmd ⟨.EN, 0, 0⟩) (step (.cmd ⟨.START, 0, 0⟩) initState).1).1).1).1.running
      = false ∧
    noRunCall (step (.cmd ⟨.EN, 1, 0⟩)
        (step .settle
          (step (.cmd ⟨.EN, 0, 0⟩) (step (.cmd ⟨.START, 0, 0⟩) initState).1).1).1).2 :=
  C3_disable_clears_run_intent (step (.cmd ⟨.START, 0, 0⟩) initState).1 (by decide) (by decide)

/-- C5 counterexample: Ramp(10007, 4000) from the initial state
(`targetFrequencyHz = 10000`, so delta = 7).  The code's truncating division
stores acceleration 7000 / 4000 = 1, while the claim's
round(delta * 1000 / durationMs) = round(1.75) = 2. -/
theorem C5_counterexample :
    initState.userFreq = 10000 ∧
    (step (.cmd ⟨.RAMP, 10007, 4000⟩) initState).1.accel = 1 ∧
    clamp_u32 (specRampRate 7 4000) 1 2000000 = 2 := by
  decide

/-- C5 (amended): for Ramp(target, durationMs) from any reachable state,
with target clamped to [1,400000], durationMs clamped to [50,60000] and
delta = |target - targetFrequencyHz|: a zero delta leaves the stored
acceleration unchanged, otherwise the stored acceleration is the truncating
integer division delta * 1000 / durationMs clamped to [1,2000000]; the
clamped target is stored; and if enabled and not alarmed a Start is issued
that sets `runRequested` and calls run, regardless of the prior run state. -/
theorem requestStart_fst (s : MState) :
    (requestStart s).1 =
      if s.attached && s.en && !s.alarm then
        { s with runReq := true, running := true, stopping := false }
      else s := by
  rw [requestStart_eq]; split_ifs <;> rfl

theorem requestStart_fst_userFreq (s : MState) : (requestStart s).1.userFreq = s.userFreq := by
  rw [requestStart_fst]; split_ifs <;> rfl

theorem requestStart_fst_accel (s : MState) : (requestStart s).1.accel = s.accel := by
  rw [requestStart_fst]; split_ifs <;> rfl

theorem requestStart_fst_runReq (s : MState) :
    (requestStart s).1.runReq = (s.runReq || (s.attached && s.en && !s.alarm)) := by
  rw [requestStart_fst]; split_ifs with hc <;> simp [hc]

theorem requestStart_run_mem (s : MState) (hc : (s.attached && s.en && !s.alarm) = true) :
    (if s.dir then Effect.runBackward else Effect.runForward) ∈ (requestStart s).2 := by
  rw [requestStart_eq, if_pos hc]; simp

set_option maxHeartbeats 1600000 in
theorem C5_ramp (s : MState) (h : Reachable s) (a b : Nat) :
    (step (.cmd ⟨.RAMP, a, b⟩) s).1.userFreq = clamp_u32 a 1 400000 ∧
    ((if clamp_u32 a 1 400000 > s.userFreq then clamp_u32 a 1 400000 - s.userFreq
        else s.userFreq - clamp_u32 a 1 400000) = 0 →
      (step (.cmd ⟨.RAMP, a, b⟩) s).1.accel = s.accel) ∧
    ((if clamp_u32 a 1 400000 > s.userFreq then clamp_u32 a 1 400000 - s.userFreq
        else s.userFreq - clamp_u32 a 1 400000) ≠ 0 →
      (step (.cmd ⟨.RAMP, a, b⟩) s).1.accel =
        clamp_u32
          ((if clamp_u32 a 1 400000 > s.userFreq then clamp_u32 a 1 400000 - s.userFreq
              else s.userFreq - clamp_u32 a 1 400000) * 1000 / clamp_u32 b 50 60000)
          1 2000000) ∧
    (s.en = true → s.alarm = false →
      (step (.cmd ⟨.RAMP, a, b⟩) s).1.runReq = true ∧
      (if s.dir then Effect.runBackward else Effect.runForward) ∈ (step (.cmd ⟨.RAMP, a, b⟩) s).2) := by
  obtain ⟨hatt, hal, hen, huf1, huf2, hac1, hac2⟩ := reachable_goodState s h
  have hFM : FREQ_MAX = 400000 := rfl
  rw [hFM] at huf2
  have htgt : clamp_u32 a 1 400000 ≤ 400000 := clamp_u32_le _ _ _ (by decide)
  have hmod :
      ∀ d : Nat, d ≤ 400000 → d * 1000 / clamp_u32 b 50 60000 % 2 ^ 32 =
        d * 1000 / clamp_u32 b 50 60000 := by
    intro d hd
    exact Nat.mod_eq_of_lt (lt_of_le_of_lt (Nat.div_le_self _ _) (by omega))
  have hacc : clamp_u32 s.accel 1 2000000 = s.accel := clamp_u32_eq_self _ _ _ hac1 hac2
  simp only [step]
  rw [stepCmd_RAMP]
  dsimp only
  rw [hFM]
  refine ⟨?_, ?_, ?_, ?_⟩
  · split_ifs <;> simp [requestStart_fst_userFreq]
  · intro hd0
    split_ifs <;>
      simp_all [requestStart_fst_accel, hacc, hmod _ (by omega : (0:Nat) ≤ 400000)]
  · intro hd0
    split_ifs <;> simp_all [requestStart_fst_accel] <;>
      exact congrArg (fun x => clamp_u32 x 1 2000000)
        (Nat.mod_eq_of_lt (lt_of_le_of_lt (Nat.div_le_self _ _) (by omega)))
  · intro hen' hal'
    refine ⟨?_, ?_⟩
    · split_ifs <;> simp_all [requestStart_fst_runReq]
    · split_ifs <;>
        first
          | (exfalso; omega)
          | (exfalso; simp_all; done)
          | (apply List.mem_append_right
             rw [requestStart_eq]
             rw [if_pos (by simp_all)]
             simp_all)

/-- C6: SetFrequency stores the clamped frequency and SetAcceleration the
clamped acceleration; neither touches any other MotionState field. -/
theorem C6_clamp_and_frame (s : MState) (f a : Nat) :
    ((step (.cmd ⟨.FREQ, f, 0⟩) s).1.userFreq = clamp_u32 f 1 400000 ∧
     (step (.cmd ⟨.FREQ, f, 0⟩) s).1.accel = s.accel ∧
     (step (.cmd ⟨.FREQ, f, 0⟩) s).1.dir = s.dir ∧
     (step (.cmd ⟨.FREQ, f, 0⟩) s).1.en = s.en ∧
     (step (.cmd ⟨.FREQ, f, 0⟩) s).1.alarm = s.alarm ∧
     (step (.cmd ⟨.FREQ, f, 0⟩) s).1.runReq = s.runReq ∧
     (step (.cmd ⟨.FREQ, f, 0⟩) s).1.dirPend = s.dirPend ∧
     (step (.cmd ⟨.FREQ, f, 0⟩) s).1.dirNext = s.dirNext ∧
     (step (.cmd ⟨.FREQ, f, 0⟩) s).1.dirPin = s.dirPin ∧
     (step (.cmd ⟨.FREQ, f, 0⟩) s).1.enPin = s.enPin) ∧
    ((step (.cmd ⟨.ACCEL, a, 0⟩) s).1.accel = clamp_u32 a 1 2000000 ∧
     (step (.cmd ⟨.ACCEL, a, 0⟩) s).1.userFreq = s.userFreq ∧
     (step (.cmd ⟨.ACCEL, a, 0⟩) s).1.dir = s.dir ∧
     (step (.cmd ⟨.ACCEL, a, 0⟩) s).1.en = s.en ∧
     (step (.cmd ⟨.ACCEL, a, 0⟩) s).1.alarm = s.alarm ∧
     (step (.cmd ⟨.ACCEL, a, 0⟩) s).1.runReq = s.runReq ∧
     (step (.cmd ⟨.ACCEL, a, 0⟩) s).1.dirPend = s.dirPend ∧
     (step (.cmd ⟨.ACCEL, a, 0⟩) s).1.dirNext = s.dirNext ∧
     (step (.cmd ⟨.ACCEL, a, 0⟩) s).1.dirPin = s.dirPin ∧
     (step (.cmd ⟨.ACCEL, a, 0⟩) s).1.enPin = s.enPin) := by
  constructor <;>
    [rw [show (step (.cmd ⟨.FREQ, f, 0⟩) s) = stepCmd ⟨.FREQ, f, 0⟩ s from rfl, stepCmd_FREQ];
     rw [show (step (.cmd ⟨.ACCEL, a, 0⟩) s) = stepCmd ⟨.ACCEL, a, 0⟩ s from rfl, stepCmd_ACCEL]] <;>
    dsimp only <;> split_ifs <;> simp [FREQ_MAX]

/-- C7 counterexample: the claim says the driver output is disabled until an
explicit SetEnable(1), i.e. `enabled = false` at startup; but `setup()`
initialises `g_en = 1`. -/
theorem C7_counterexample : initState.en = true := by decide

/-- C7 (amended): the initial MotionState has direction Forward and
`runRequested = false`, but the driver is enabled from startup (`g_en = 1`
is set in `setup()`, with the EN pin driven to its active-LOW level). -/
theorem C7_initial_state :
    initState.dir = false ∧ initState.runReq = false ∧ initState.en = true ∧
    initState.alarm = false ∧ initState.dirPend = false ∧ initState.enPin = false := by
  decide

/-- C8: Stop is idempotent on the state, and SetDirection with the already
applied direction is a complete no-op (no state change, no engine call, no
pending direction). -/
theorem C8_stop_idempotent_dir_noop :
    (∀ (s : MState) (a b : Nat),
      (step (.cmd ⟨.STOP, a, b⟩) (step (.cmd ⟨.STOP, a, b⟩) s).1).1 =
        (step (.cmd ⟨.STOP, a, b⟩) s).1) ∧
    (∀ (s : MState) (a b : Nat), (a != 0) = s.dir →
      step (.cmd ⟨.DIR, a, b⟩) s = (s, [])) := by
  constructor
  · intro s a b
    obtain ⟨uf, ac, dir, en, al, rq, dp, dn, dpin, epin, att, run, st⟩ := s
    simp only [step, stepCmd_STOP, requestStop_eq]
    cases att <;> cases run <;> cases st <;> simp
  · intro s a b h
    simp only [step, stepCmd_DIR, requestDir_eq, h, if_pos]

/-- Witness for C8: both halves at the initial state. -/
theorem C8_stop_idempotent_dir_noop_witness :
    (step (.cmd ⟨.STOP, 0, 0⟩) (step (.cmd ⟨.STOP, 0, 0⟩) initState).1).1 =
      (step (.cmd ⟨.STOP, 0, 0⟩) initState).1 ∧
    step (.cmd ⟨.DIR, 0, 0⟩) initState = (initState, []) :=
  ⟨C8_stop_idempotent_dir_noop.1 initState 0 0,
   C8_stop_idempotent_dir_noop.2 initState 0 0 (by decide)⟩

/-- C10: a SetFrequency or SetAcceleration command applied while a direction
change is pending (engine still running, `runRequested` true) re-issues the
run call in the old, still-applied direction; the pending direction has not
been written (direction field, pin and pending flag unchanged). -/
theorem C10_speed_change_during_pending_dir (s : MState) (f a : Nat)
    (hatt : s.attached = true) (hpend : s.dirPend = true)
    (hrun : s.running = true) (hreq : s.runReq = true) :
    ((if s.dir then Effect.runBackward else Effect.runForward) ∈ (step (.cmd ⟨.FREQ, f, 0⟩) s).2 ∧
     (step (.cmd ⟨.FREQ, f, 0⟩) s).1.dir = s.dir ∧
     (step (.cmd ⟨.FREQ, f, 0⟩) s).1.dirPin = s.dirPin ∧
     (step (.cmd ⟨.FREQ, f, 0⟩) s).1.dirPend = true) ∧
    ((if s.dir then Effect.runBackward else Effect.runForward) ∈ (step (.cmd ⟨.ACCEL, a, 0⟩) s).2 ∧
     (step (.cmd ⟨.ACCEL, a, 0⟩) s).1.dir = s.dir ∧
     (step (.cmd ⟨.ACCEL, a, 0⟩) s).1.dirPin = s.dirPin ∧
     (step (.cmd ⟨.ACCEL, a, 0⟩) s).1.dirPend = true) := by
  constructor <;>
    [rw [show (step (.cmd ⟨.FREQ, f, 0⟩) s) = stepCmd ⟨.FREQ, f, 0⟩ s from rfl, stepCmd_FREQ];
     rw [show (step (.cmd ⟨.ACCEL, a, 0⟩) s) = stepCmd ⟨.ACCEL, a, 0⟩ s from rfl, stepCmd_ACCEL]] <;>
    dsimp only <;> rw [if_pos (by simp [hatt, hrun, hreq])] <;>
    simp [hpend, applyParamsToStepper_snd]

/-- Witness for C10: the state reached by Start then SetDirection(1) from
the initial state has a pending direction with the engine still running. -/
theorem C10_speed_change_during_pending_dir_witness :
    ((if (step (.cmd ⟨.DIR, 1, 0⟩) (step (.cmd ⟨.START, 0, 0⟩) initState).1).1.dir then
        Effect.runBackward else Effect.runForward) ∈
      (step (.cmd ⟨.FREQ, 200, 0⟩) (step (.cmd ⟨.DIR, 1, 0⟩) (step (.cmd ⟨.START, 0, 0⟩) initState).1).1).2 ∧
     (step (.cmd ⟨.FREQ, 200, 0⟩) (step (.cmd ⟨.DIR, 1, 0⟩) (step (.cmd ⟨.START, 0, 0⟩) initState).1).1).1.dir =
       (step (.cmd ⟨.DIR, 1, 0⟩) (step (.cmd ⟨.START, 0, 0⟩) initState).1).1.dir ∧
     (step (.cmd ⟨.FREQ, 200, 0⟩) (step (.cmd ⟨.DIR, 1, 0⟩) (step (.cmd ⟨.START, 0, 0⟩) initState).1).1).1.dirPin =
       (step (.cmd ⟨.DIR, 1, 0⟩) (step (.cmd ⟨.START, 0, 0⟩) initState).1).1.dirPin ∧
     (step (.cmd ⟨.FREQ, 200, 0⟩) (step (.cmd ⟨.DIR, 1, 0⟩) (step (.cmd ⟨.START, 0, 0⟩) initState).1).1).1.dirPend = true) ∧
    ((if (step (.cmd ⟨.DIR, 1, 0⟩) (step (.cmd ⟨.START, 0, 0⟩) initState).1).1.dir then
        Effect.runBackward else Effect.runForward) ∈
      (step (.cmd ⟨.ACCEL, 300, 0⟩) (step (.cmd ⟨.DIR, 1, 0⟩) (step (.cmd ⟨.START, 0, 0⟩) initState).1).1).2 ∧
     (step (.cmd ⟨.ACCEL, 300, 0⟩) (step (.cmd ⟨.DIR, 1, 0⟩) (step (.cmd ⟨.START, 0, 0⟩) initState).1).1).1.dir =
       (step (.cmd ⟨.DIR, 1, 0⟩) (step (.cmd ⟨.START, 0, 0⟩) initState).1).1.dir ∧
     (step (.cmd ⟨.ACCEL, 300, 0⟩) (step (.cmd ⟨.DIR, 1, 0⟩) (step (.cmd ⟨.START, 0, 0⟩) initState).1).1).1.dirPin =
       (step (.cmd ⟨.DIR, 1, 0⟩) (step (.cmd ⟨.START, 0, 0⟩) initState).1).1.dirPin ∧
     (step (.cmd ⟨.ACCEL, 300, 0⟩) (step (.cmd ⟨.DIR, 1, 0⟩) (step (.cmd ⟨.START, 0, 0⟩) initState).1).1).1.dirPend = true) :=
  C10_speed_change_during_pending_dir
    (step (.cmd ⟨.DIR, 1, 0⟩) (step (.cmd ⟨.START, 0, 0⟩) initState).1).1 200 300
    (by decide) (by decide) (by decide) (by decide)

/-- Witness for C5: Ramp(20000, 1000) from the initial state (current
frequency 10000) stores target 20000 and acceleration
|20000-10000|*1000/1000 = 10000, and re-arms `runRequested`. -/
theorem C5_ramp_witness :
    (step (.cmd ⟨.RAMP, 20000, 1000⟩) initState).1.userFreq = 20000 ∧
    (step (.cmd ⟨.RAMP, 20000, 1000⟩) initState).1.accel = 10000 ∧
    (step (.cmd ⟨.RAMP, 20000, 1000⟩) initState).1.runReq = true := by
  obtain ⟨h1, h2, h3, h4⟩ := C5_ramp initState Reachable.init 20000 1000
  exact ⟨by rw [h1]; decide, by rw [h3 (by decide)]; decide, (h4 rfl rfl).1⟩

theorem requestStart_snd_noDirPin (s : MState) (l : Bool) :
    Effect.dirPinWrite l ∉ (requestStart s).2 := by
  rw [requestStart_eq]; split_ifs <;> simp

/-- C9: from any reachable state in which the alarm is latched or the driver
is disabled, no event (any command, any alarm sample, the pending-direction
tick, or an engine settle) makes a run call on the engine; moreover the step
that latches a rising alarm edge and the step that disables the driver make
no run call themselves. -/
theorem C9_no_run_when_alarmed_or_disabled :
    (∀ (s : MState) (e : Event), Reachable s → (s.alarm = true ∨ s.en = false) →
      noRunCall (step e s).2) ∧
    (∀ s : MState, noRunCall (step (.alarmSample true) s).2) ∧
    (∀ (s : MState) (a b : Nat), (a != 0) = false →
      noRunCall (step (.cmd ⟨.EN, a, b⟩) s).2) := by
  refine ⟨?_, ?_, ?_⟩
  · intro s e hr hcase
    obtain ⟨hatt, hal, hen, -⟩ := reachable_goodState s hr
    have hrq : s.runReq = false := by
      rcases hcase with h | h
      · exact hal h
      · exact hen h
    obtain ⟨t, a, b⟩ | l | - | - := e
    · cases t
      case START =>
        simp only [step, stepCmd_START]
        rw [requestStart_eq]
        split_ifs <;> simp_all [noRunCall]
      case STOP =>
        simp only [step, stepCmd_STOP]
        rw [requestStop_eq]
        split_ifs <;> simp_all [noRunCall]
      case FREQ =>
        simp only [step]
        rw [stepCmd_FREQ]
        dsimp only
        simp only [applyParamsToStepper_snd]
        split_ifs <;> simp_all [noRunCall]
      case ACCEL =>
        simp only [step]
        rw [stepCmd_ACCEL]
        dsimp only
        simp only [applyParamsToStepper_snd]
        split_ifs <;> simp_all [noRunCall]
      case DIR =>
        simp only [step, stepCmd_DIR]
        rw [requestDir_eq]
        split_ifs <;> simp_all [noRunCall]
      case EN =>
        simp only [step]
        rw [stepCmd_EN]
        dsimp only
        split_ifs <;> simp_all [noRunCall]
      case RAMP =>
        simp only [step]
        rw [stepCmd_RAMP]
        dsimp only
        simp only [applyParamsToStepper_snd]
        split_ifs <;> simp_all [noRunCall]
      case STATUS =>
        simp [step, stepCmd_STATUS, noRunCall]
    · simp only [step]
      rw [alarmSampleStep_eq]
      split_ifs <;> simp_all [noRunCall]
    · simp only [step]
      rw [dirTickStep_eq]
      dsimp only
      split_ifs <;> simp_all [noRunCall]
    · simp only [step]
      unfold settleStep
      split_ifs <;> simp_all [noRunCall]
  · intro s
    simp only [step]
    rw [alarmSampleStep_eq]
    split_ifs <;> simp_all [noRunCall]
  · intro s a b hA
    simp only [step]
    rw [stepCmd_EN]
    dsimp only
    rw [hA]
    simp only [Bool.not_false, if_pos]
    split_ifs <;> simp [noRunCall]

/-- Witness for C9: no run call from the alarm-latched reachable state, on a
rising-edge sample from the initial state, and on a SetEnable(0). -/
theorem C9_no_run_when_alarmed_or_disabled_witness :
    noRunCall (step (.cmd ⟨.START, 0, 0⟩) (step (.alarmSample true) initState).1).2 ∧
    noRunCall (step (.alarmSample true) initState).2 ∧
    noRunCall (step (.cmd ⟨.EN, 0, 0⟩) initState).2 :=
  ⟨C9_no_run_when_alarmed_or_disabled.1 (step (.alarmSample true) initState).1
      (.cmd ⟨.START, 0, 0⟩) (Reachable.step (.alarmSample true) Reachable.init)
      (Or.inl (by decide)),
   C9_no_run_when_alarmed_or_disabled.2.1 initState,
   C9_no_run_when_alarmed_or_disabled.2.2 initState 0 0 (by decide)⟩

theorem requestStart_fst_dir (s : MState) : (requestStart s).1.dir = s.dir := by
  rw [requestStart_fst]; split_ifs <;> rfl

theorem requestStart_fst_dirPend (s : MState) : (requestStart s).1.dirPend = s.dirPend := by
  rw [requestStart_fst]; split_ifs <;> rfl

theorem requestStart_fst_dirPin (s : MState) : (requestStart s).1.dirPin = s.dirPin := by
  rw [requestStart_fst]; split_ifs <;> rfl

/-- C4: the direction pin is written only while the engine reports
not-running; SetDirection to a new value while running defers the change
(no pin write, pending flag set, a stop is issued, pin level untouched); the
pending flag is cleared exactly by the first pending-direction tick that
observes the engine not-running — no other event clears it — and that tick
writes the pin to the pending value. -/
theorem C4_direction_change_protocol :
    (∀ (s : MState) (e : Event) (l : Bool), Reachable s →
      Effect.dirPinWrite l ∈ (step e s).2 → s.running = false) ∧
    (∀ (s : MState) (a b : Nat), Reachable s → s.running = true → (a != 0) ≠ s.dir →
      (∀ l : Bool, Effect.dirPinWrite l ∉ (step (.cmd ⟨.DIR, a, b⟩) s).2) ∧
      (step (.cmd ⟨.DIR, a, b⟩) s).1.dirPend = true ∧
      (step (.cmd ⟨.DIR, a, b⟩) s).1.dirNext = (a != 0) ∧
      (step (.cmd ⟨.DIR, a, b⟩) s).1.dirPin = s.dirPin ∧
      Effect.stopMove ∈ (step (.cmd ⟨.DIR, a, b⟩) s).2) ∧
    (∀ (s : MState) (e : Event), Reachable s → s.dirPend = true →
      ((step e s).1.dirPend = false ↔ e = Event.dirTick ∧ s.running = false)) ∧
    (∀ s : MState, Reachable s → s.dirPend = true → s.running = false →
      Effect.dirPinWrite s.dirNext ∈ (step Event.dirTick s).2 ∧
      (step Event.dirTick s).1.dir = s.dirNext ∧
      (step Event.dirTick s).1.dirPin = s.dirNext) := by
  refine ⟨?_, ?_, ?_, ?_⟩
  · intro s e l hr hmem
    obtain ⟨hatt, -⟩ := reachable_goodState s hr
    cases hrun : s.running
    · rfl
    · exfalso
      obtain ⟨t, a, b⟩ | al | - | - := e
      · cases t
        case START =>
          rw [show step (.cmd ⟨.START, a, b⟩) s = requestStart s from rfl] at hmem
          exact requestStart_snd_noDirPin s l hmem
        case STOP =>
          rw [show step (.cmd ⟨.STOP, a, b⟩) s = requestStop s from rfl,
            requestStop_eq] at hmem
          revert hmem
          split_ifs <;> simp
        case FREQ =>
          rw [show step (.cmd ⟨.FREQ, a, b⟩) s = stepCmd ⟨.FREQ, a, b⟩ s from rfl,
            stepCmd_FREQ] at hmem
          revert hmem
          dsimp only
          simp only [applyParamsToStepper_snd]
          split_ifs <;> simp
        case ACCEL =>
          rw [show step (.cmd ⟨.ACCEL, a, b⟩) s = stepCmd ⟨.ACCEL, a, b⟩ s from rfl,
            stepCmd_ACCEL] at hmem
          revert hmem
          dsimp only
          simp only [applyParamsToStepper_snd]
          split_ifs <;> simp
        case DIR =>
          rw [show step (.cmd ⟨.DIR, a, b⟩) s = requestDir (a != 0) s from rfl,
            requestDir_eq] at hmem
          revert hmem
          split_ifs <;> simp_all
        case EN =>
          rw [show step (.cmd ⟨.EN, a, b⟩) s = stepCmd ⟨.EN, a, b⟩ s from rfl,
            stepCmd_EN] at hmem
          revert hmem
          dsimp only
          split_ifs <;> simp_all [requestStart_snd_noDirPin]
        case RAMP =>
          rw [show step (.cmd ⟨.RAMP, a, b⟩) s = stepCmd ⟨.RAMP, a, b⟩ s from rfl,
            stepCmd_RAMP] at hmem
          revert hmem
          dsimp only
          simp only [applyParamsToStepper_snd]
          split_ifs <;> simp_all [requestStart_snd_noDirPin]
        case STATUS =>
          simp [step, stepCmd_STATUS] at hmem
      · rw [show step (.alarmSample al) s = alarmSampleStep al s from rfl,
          alarmSampleStep_eq] at hmem
        revert hmem
        split_ifs <;> simp_all [requestStart_snd_noDirPin]
      · rw [show step Event.dirTick s = dirTickStep s from rfl, dirTickStep_eq] at hmem
        revert hmem
        rw [if_neg (by simp [hrun])]
        simp
      · rw [show step Event.settle s = settleStep s from rfl] at hmem
        revert hmem
        unfold settleStep
        split_ifs <;> simp
  · intro s a b hr hrun hne
    obtain ⟨hatt, -⟩ := reachable_goodState s hr
    have hbranch :
        step (.cmd ⟨.DIR, a, b⟩) s =
          ({ s with dirNext := a != 0, dirPend := true, stopping := true },
           [Effect.stopMove]) := by
      rw [show step (.cmd ⟨.DIR, a, b⟩) s = requestDir (a != 0) s from rfl, requestDir_eq]
      rw [if_neg hne, if_pos (by simp [hatt, hrun])]
    rw [hbranch]
    simp
  · intro s e hr hpend
    obtain ⟨hatt, -⟩ := reachable_goodState s hr
    obtain ⟨t, a, b⟩ | al | - | - := e
    · cases t
      case START =>
        rw [show step (.cmd ⟨.START, a, b⟩) s = requestStart s from rfl]
        simp [requestStart_fst_dirPend, hpend]
      case STOP =>
        rw [show step (.cmd ⟨.STOP, a, b⟩) s = requestStop s from rfl, requestStop_eq]
        simp [hpend]
      case FREQ =>
        rw [show step (.cmd ⟨.FREQ, a, b⟩) s = stepCmd ⟨.FREQ, a, b⟩ s from rfl,
          stepCmd_FREQ]
        dsimp only
        split_ifs <;> simp [hpend]
      case ACCEL =>
        rw [show step (.cmd ⟨.ACCEL, a, b⟩) s = stepCmd ⟨.ACCEL, a, b⟩ s from rfl,
          stepCmd_ACCEL]
        dsimp only
        split_ifs <;> simp [hpend]
      case DIR =>
        rw [show step (.cmd ⟨.DIR, a, b⟩) s = requestDir (a != 0) s from rfl,
          requestDir_eq]
        split_ifs <;> simp_all [requestStart_fst_dirPend, hpend]
      case EN =>
        rw [show step (.cmd ⟨.EN, a, b⟩) s = stepCmd ⟨.EN, a, b⟩ s from rfl, stepCmd_EN]
        dsimp only
        split_ifs <;> simp_all [requestStart_fst_dirPend, hpend]
      case RAMP =>
        rw [show step (.cmd ⟨.RAMP, a, b⟩) s = stepCmd ⟨.RAMP, a, b⟩ s from rfl,
          stepCmd_RAMP]
        dsimp only
        split_ifs <;> simp_all [requestStart_fst_dirPend, hpend]
      case STATUS =>
        simp [step, stepCmd_STATUS, hpend]
    · rw [show step (.alarmSample al) s = alarmSampleStep al s from rfl,
        alarmSampleStep_eq]
      split_ifs <;> simp_all [requestStart_fst_dirPend, hpend]
    · rw [show step Event.dirTick s = dirTickStep s from rfl, dirTickStep_eq]
      cases hrun : s.running
      · rw [if_pos (by simp [hpend, hatt, hrun])]
        dsimp only
        split_ifs <;> simp [requestStart_fst_dirPend]
      · rw [if_neg (by simp [hrun])]
        simp [hpend, hrun]
    · rw [show step Event.settle s = settleStep s from rfl]
      unfold settleStep
      split_ifs <;> simp [hpend]
  · intro s hr hpend hrun0
    obtain ⟨hatt, -⟩ := reachable_goodState s hr
    rw [show step Event.dirTick s = dirTickStep s from rfl, dirTickStep_eq,
      if_pos (by simp [hpend, hatt, hrun0])]
    dsimp only
    split_ifs <;>
      simp [requestStart_fst_dir, requestStart_fst_dirPin]

/-- Witness for C4: the pin-write instances on the concrete trace
Start; SetDirection(1); settle from the initial state. -/
theorem C4_direction_change_protocol_witness :
    initState.running = false ∧
    ((∀ l : Bool, Effect.dirPinWrite l ∉ (step (.cmd ⟨.DIR, 1, 0⟩) runState).2) ∧
     (step (.cmd ⟨.DIR, 1, 0⟩) runState).1.dirPend = true ∧
     (step (.cmd ⟨.DIR, 1, 0⟩) runState).1.dirNext = (1 != 0) ∧
     (step (.cmd ⟨.DIR, 1, 0⟩) runState).1.dirPin = runState.dirPin ∧
     Effect.stopMove ∈ (step (.cmd ⟨.DIR, 1, 0⟩) runState).2) ∧
    ((step Event.dirTick stopState).1.dirPend = false ↔
      Event.dirTick = Event.dirTick ∧ stopState.running = false) ∧
    (Effect.dirPinWrite stopState.dirNext ∈ (step Event.dirTick stopState).2 ∧
     (step Event.dirTick stopState).1.dir = stopState.dirNext ∧
     (step Event.dirTick stopState).1.dirPin = stopState.dirNext) :=
  ⟨C4_direction_change_protocol.1 initState (.cmd ⟨.DIR, 1, 0⟩) true Reachable.init
      (by decide),
   C4_direction_change_protocol.2.1 runState 1 0
      (Reachable.step (.cmd ⟨.START, 0, 0⟩) Reachable.init) (by decide) (by decide),
   C4_direction_change_protocol.2.2.1 stopState Event.dirTick
      (Reachable.step .settle (Reachable.step (.cmd ⟨.DIR, 1, 0⟩)
        (Reachable.step (.cmd ⟨.START, 0, 0⟩) Reachable.init))) (by decide),
   C4_direction_change_protocol.2.2.2 stopState
      (Reachable.step .settle (Reachable.step (.cmd ⟨.DIR, 1, 0⟩)
        (Reachable.step (.cmd ⟨.START, 0, 0⟩) Reachable.init))) (by decide) (by decide)⟩
